import Mathlib

/-!
Verification of the backend-selection and delegation layer of the
tauri keyring plugin (src/desktop.rs, src/mobile.rs).

The two host binding adapters are embedded directly from the source.
The credential model, the error taxonomy and `KeyringImplementation`
(src/models.rs, src/error.rs, src/implementation.rs) are not part of
the provided sources, so they are modelled from the specification,
each such definition says so in its doc comment.
-/

set_option autoImplicit false

/-- Modelled from the spec: `CredentialType` (src/models.rs is absent) — "an
enumerated tag distinguishing logical kinds of secret (e.g., password, token,
certificate-key)"; immutable, used only as a discriminator. -/
inductive CredentialType
  | password
  | token
  | certificateKey
deriving DecidableEq, Repr

/-- Modelled from the spec: `CredentialValue` (src/models.rs is absent) — "the
opaque secret payload", "treated as an atomic blob", required only to
"round-trip byte-for-byte": a sequence of bytes. -/
structure CredentialValue where
  bytes : List Nat
deriving DecidableEq, Repr

/-- Modelled from the spec: the crate error taxonomy (src/error.rs is absent) —
`PlatformError(message)` carrying the backend diagnostic string, `NotFound`
for absent credentials, and the error produced when mobile host plugin
registration fails (surfaced via the same `Result` channel). -/
inductive KError
  | platformError (msg : String)
  | notFound
  | pluginRegistration (msg : String)
deriving DecidableEq, Repr

/-- A credential identity key: `(service_name, username, credential_type)`. -/
def CKey : Type := String × String × CredentialType

instance : DecidableEq CKey := by
  unfold CKey
  infer_instance

/-- First value stored under `key` in an association list of entries. -/
def lookupKey (key : CKey) : List (CKey × CredentialValue) → Option CredentialValue
  | [] => none
  | e :: es => if e.1 = key then some e.2 else lookupKey key es

/-- Remove every entry stored under `key`. -/
def removeKey (key : CKey) : List (CKey × CredentialValue) → List (CKey × CredentialValue)
  | [] => []
  | e :: es => if e.1 = key then removeKey key es else e :: removeKey key es

/-- Number of entries stored under `key`. -/
def countKey (key : CKey) : List (CKey × CredentialValue) → Nat
  | [] => 0
  | e :: es => if e.1 = key then countKey key es + 1 else countKey key es

/-- Modelled from the spec: the process-wide store state behind
`KeyringImplementation` (src/implementation.rs is absent) — the service
namespace set once by `initialize_service` and prefixing every key, and the
stored entries mapping credential identities to values. -/
structure KState where
  service : String
  entries : List (CKey × CredentialValue)
deriving DecidableEq

/-- The state of a fresh process: no namespace set, nothing stored. -/
def initialState : KState := { service := "", entries := [] }

/-- The `KeyringImplementation` type is a unit struct in the source; its behaviour
lives in the operations below. -/
structure KeyringImplementation
deriving DecidableEq, Repr

namespace KeyringImplementation

/-- Modelled from the spec: `initialize_service(service_name)` "sets the
process-wide namespace prefix used by all subsequent calls". -/
def initialize_service (service_name : String) (st : KState) :
    Except KError Unit × KState :=
  (Except.ok (), { st with service := service_name })

/-- Modelled from the spec: `set` "writes `value` under the Credential Identity
`(service_name, username, credential_type)`, creating or overwriting";
"writing with an existing identity replaces the prior value". -/
def set (_i : KeyringImplementation) (username : String) (ct : CredentialType)
    (v : CredentialValue) (st : KState) : Except KError Unit × KState :=
  let key : CKey := (st.service, username, ct)
  (Except.ok (), { st with entries := (key, v) :: removeKey key st.entries })

/-- Modelled from the spec: `get` "returns the currently stored
`CredentialValue` for that identity. Fails with `NotFound` if no such
credential exists". -/
def get (_i : KeyringImplementation) (username : String) (ct : CredentialType)
    (st : KState) : Except KError CredentialValue × KState :=
  match lookupKey (st.service, username, ct) st.entries with
  | some v => (Except.ok v, st)
  | none => (Except.error KError.notFound, st)

/-- Modelled from the spec: `delete` "removes the stored value. Fails with
`NotFound` if nothing was stored"; "no side effect on failure (removal must be
all-or-nothing)". -/
def delete (_i : KeyringImplementation) (username : String) (ct : CredentialType)
    (st : KState) : Except KError Unit × KState :=
  let key : CKey := (st.service, username, ct)
  match lookupKey key st.entries with
  | some _ => (Except.ok (), { st with entries := removeKey key st.entries })
  | none => (Except.error KError.notFound, st)

/-- Modelled from the spec: `exists` "returns a boolean without surfacing
`NotFound`"; "must not have the side effect of creating an entry";
"boolean probe, side-effect-free". -/
def existsCheck (_i : KeyringImplementation) (username : String)
    (ct : CredentialType) (st : KState) : Except KError Bool × KState :=
  (Except.ok (lookupKey (st.service, username, ct) st.entries).isSome, st)

end KeyringImplementation

namespace Desktop

/-- Embeds `pub struct Keyring<R: Runtime>(AppHandle<R>)` from src/desktop.rs,
with the app handle type abstracted. -/
structure Keyring (A : Type) where
  app : A

/-- Embeds `fn implementation(&self) -> KeyringImplementation { KeyringImplementation }`
from src/desktop.rs. -/
def Keyring.implementation {A : Type} (_k : Keyring A) : KeyringImplementation :=
  KeyringImplementation.mk

/-- Embeds `Keyring::initialize_service` from src/desktop.rs:
`KeyringImplementation::initialize_service(service_name)`. -/
def Keyring.initialize_service {A : Type} (_k : Keyring A) (service_name : String)
    (st : KState) : Except KError Unit × KState :=
  KeyringImplementation.initialize_service service_name st

/-- Embeds `Keyring::set` from src/desktop.rs:
`self.implementation().set(username, credential_type, value)`. -/
def Keyring.set {A : Type} (k : Keyring A) (username : String)
    (ct : CredentialType) (v : CredentialValue) (st : KState) :
    Except KError Unit × KState :=
  k.implementation.set username ct v st

/-- Embeds `Keyring::get` from src/desktop.rs:
`self.implementation().get(username, credential_type)`. -/
def Keyring.get {A : Type} (k : Keyring A) (username : String)
    (ct : CredentialType) (st : KState) : Except KError CredentialValue × KState :=
  k.implementation.get username ct st

/-- Embeds `Keyring::delete` from src/desktop.rs:
`self.implementation().delete(username, credential_type)`. -/
def Keyring.delete {A : Type} (k : Keyring A) (username : String)
    (ct : CredentialType) (st : KState) : Except KError Unit × KState :=
  k.implementation.delete username ct st

/-- Embeds `Keyring::exists` from src/desktop.rs:
`self.implementation().exists(username, credential_type)`. -/
def Keyring.existsCheck {A : Type} (k : Keyring A) (username : String)
    (ct : CredentialType) (st : KState) : Except KError Bool × KState :=
  k.implementation.existsCheck username ct st

end Desktop

namespace Mobile

/-- Embeds `pub struct Keyring<R: Runtime>(PluginHandle<R>)` from src/mobile.rs,
with the plugin handle type abstracted. -/
structure Keyring (H : Type) where
  handle : H

/-- Embeds `fn implementation(&self) -> KeyringImplementation { KeyringImplementation }`
from src/mobile.rs. -/
def Keyring.implementation {H : Type} (_k : Keyring H) : KeyringImplementation :=
  KeyringImplementation.mk

/-- Embeds `Keyring::initialize_service` from src/mobile.rs. -/
def Keyring.initialize_service {H : Type} (_k : Keyring H) (service_name : String)
    (st : KState) : Except KError Unit × KState :=
  KeyringImplementation.initialize_service service_name st

/-- Embeds `Keyring::set` from src/mobile.rs:
`self.implementation().set(username, credential_type, value)`. -/
def Keyring.set {H : Type} (k : Keyring H) (username : String)
    (ct : CredentialType) (v : CredentialValue) (st : KState) :
    Except KError Unit × KState :=
  k.implementation.set username ct v st

/-- Embeds `Keyring::get` from src/mobile.rs. -/
def Keyring.get {H : Type} (k : Keyring H) (username : String)
    (ct : CredentialType) (st : KState) : Except KError CredentialValue × KState :=
  k.implementation.get username ct st

/-- Embeds `Keyring::delete` from src/mobile.rs. -/
def Keyring.delete {H : Type} (k : Keyring H) (username : String)
    (ct : CredentialType) (st : KState) : Except KError Unit × KState :=
  k.implementation.delete username ct st

/-- Embeds `Keyring::exists` from src/mobile.rs. -/
def Keyring.existsCheck {H : Type} (k : Keyring H) (username : String)
    (ct : CredentialType) (st : KState) : Except KError Bool × KState :=
  k.implementation.existsCheck username ct st

end Mobile

/-- The concrete backend stores that the two `init` functions can construct
and install via `keyring_core::set_default_store`. -/
inductive Backend
  | mock
  | windowsStore
  | macosStore
  | dbusSecretServiceStore
  | linuxKeyutilsStore
  | androidStore
  | iosStore
deriving DecidableEq, Repr

/-- A backend is platform-native when it is not the in-memory mock store. -/
def Backend.isPlatformNative : Backend → Bool
  | Backend.mock => false
  | _ => true

/-- The two mutually exclusive Linux build features of src/desktop.rs. -/
inductive LinuxFeature
  | dbusSecretService
  | linuxKeyutils
deriving DecidableEq, Repr

/-- The store each Linux feature selects. -/
def LinuxFeature.backend : LinuxFeature → Backend
  | LinuxFeature.dbusSecretService => Backend.dbusSecretServiceStore
  | LinuxFeature.linuxKeyutils => Backend.linuxKeyutilsStore

/-- Build-time resolution of the `LinuxStore` alias in src/desktop.rs lines
35-38: each enabled feature contributes one `use ... as LinuxStore` item.
With both features the alias is defined twice (a compile error), with neither
it is undefined (a compile error); `none` models a rejected build. -/
def linuxStoreAlias (dbusFeature keyutilsFeature : Bool) : Option LinuxFeature :=
  match dbusFeature, keyutilsFeature with
  | true, false => some LinuxFeature.dbusSecretService
  | false, true => some LinuxFeature.linuxKeyutils
  | _, _ => none

/-- The compile-time desktop target: `target_os` of the `cfg` attributes in
src/desktop.rs; a Linux build carries its resolved feature selection. -/
inductive DesktopOS
  | windows
  | macos
  | linux (feature : LinuxFeature)
deriving DecidableEq, Repr

/-- The platform-native store the desktop platform branch constructs. -/
def DesktopOS.backend : DesktopOS → Backend
  | DesktopOS.windows => Backend.windowsStore
  | DesktopOS.macos => Backend.macosStore
  | DesktopOS.linux f => f.backend

/-- The compile-time mobile target of src/mobile.rs. -/
inductive MobileOS
  | android
  | ios
deriving DecidableEq, Repr

/-- The platform-native store the mobile `init` constructs. -/
def MobileOS.backend : MobileOS → Backend
  | MobileOS.android => Backend.androidStore
  | MobileOS.ios => Backend.iosStore

/-- Evaluation of `std::env::var name` over an environment given as a list of bindings:
the value of the first binding of `name`, if any. -/
def envVar (name : String) : List (String × String) → Option String
  | [] => none
  | p :: ps => if p.1 = name then some p.2 else envVar name ps

/-- The observable outcome of an `init` call: the returned `Result` carrying
the keyring handle, the store installed by `keyring_core::set_default_store`
(if the call reached it), and the list of store constructors invoked, in
order. -/
structure InitOutcome (K : Type) where
  result : Except KError K
  installed : Option Backend
  constructed : List Backend

/-- Embeds `init` from src/desktop.rs. `app` and `api` abstract the `AppHandle` and
`PluginApi` arguments (`_api` is unused in the source); `env` is the process
environment; `os` the compile-time target; `construct b` the outcome of the
store constructor of backend `b` (`Store::new()` etc.), with the diagnostic
string `e.to_string()` on failure. -/
def desktopInit {A B : Type} (app : A) (_api : B) (env : List (String × String))
    (os : DesktopOS) (construct : Backend → Except String Unit) :
    InitOutcome (Desktop.Keyring A) :=
  if (envVar "KEYRING_USE_MOCK" env).isSome then
    match construct Backend.mock with
    | Except.ok _ =>
      { result := Except.ok ⟨app⟩
        installed := some Backend.mock
        constructed := [Backend.mock] }
    | Except.error e =>
      { result := Except.error (KError.platformError e)
        installed := none
        constructed := [Backend.mock] }
  else
    match construct os.backend with
    | Except.ok _ =>
      { result := Except.ok ⟨app⟩
        installed := some os.backend
        constructed := [os.backend] }
    | Except.error e =>
      { result := Except.error (KError.platformError e)
        installed := none
        constructed := [os.backend] }

/-- Embeds `init` from src/mobile.rs. `app` abstracts the (unused) `AppHandle`;
`register` is the outcome of `api.register_android_plugin` /
`api.register_ios_plugin` — the only use of the `PluginApi` capability —
yielding the plugin handle on success; `env` is the process environment
(unused by the source: mobile `init` performs no mock check). -/
def mobileInit {A H : Type} (_app : A) (_env : List (String × String))
    (os : MobileOS) (construct : Backend → Except String Unit)
    (register : Except String H) : InitOutcome (Mobile.Keyring H) :=
  match construct os.backend with
  | Except.error e =>
    { result := Except.error (KError.platformError e)
      installed := none
      constructed := [os.backend] }
  | Except.ok _ =>
    match register with
    | Except.ok h =>
      { result := Except.ok ⟨h⟩
        installed := some os.backend
        constructed := [os.backend] }
    | Except.error e =>
      { result := Except.error (KError.pluginRegistration e)
        installed := some os.backend
        constructed := [os.backend] }

/-- The state transitions of the five facade operations, used to state the
"at any time" invariant of the store. -/
inductive Op
  | opInitializeService (s : String)
  | opSet (u : String) (ct : CredentialType) (v : CredentialValue)
  | opGet (u : String) (ct : CredentialType)
  | opDelete (u : String) (ct : CredentialType)
  | opExists (u : String) (ct : CredentialType)

/-- State after one operation (the returned value is discarded). -/
def applyOp (st : KState) : Op → KState
  | Op.opInitializeService s => (KeyringImplementation.initialize_service s st).2
  | Op.opSet u ct v => (KeyringImplementation.mk.set u ct v st).2
  | Op.opGet u ct => (KeyringImplementation.mk.get u ct st).2
  | Op.opDelete u ct => (KeyringImplementation.mk.delete u ct st).2
  | Op.opExists u ct => (KeyringImplementation.mk.existsCheck u ct st).2

/-- State after a sequence of operations. -/
def runOps : List Op → KState → KState
  | [], st => st
  | o :: os, st => runOps os (applyOp st o)

/-- Iterated `exists` calls on the same identity, returning the final state. -/
def existsIter (i : KeyringImplementation) (u : String) (ct : CredentialType) :
    Nat → KState → KState
  | 0, st => st
  | n + 1, st => existsIter i u ct n (i.existsCheck u ct st).2

/-- A sample one-entry store state, used to instantiate theorems with
hypotheses at a concrete input. -/
def sampleState : KState :=
  { service := "svc"
    entries := [(("svc", "alice", CredentialType.password), CredentialValue.mk [115, 51])] }

/-- A store constructor that always fails with diagnostic string "boom",
used to instantiate initialization theorems at a concrete input. -/
def failConstruct : Backend → Except String Unit :=
  fun _ => Except.error "boom"

theorem lookupKey_removeKey_self (key : CKey) (l : List (CKey × CredentialValue)) :
    lookupKey key (removeKey key l) = none := by
  induction l with
  | nil => rfl
  | cons e es ih =>
    by_cases h : e.1 = key
    · simp [removeKey, h, ih]
    · simp [removeKey, lookupKey, h, ih]

theorem removeKey_removeKey_self (key : CKey) (l : List (CKey × CredentialValue)) :
    removeKey key (removeKey key l) = removeKey key l := by
  induction l with
  | nil => rfl
  | cons e es ih =>
    by_cases h : e.1 = key
    · simp [removeKey, h, ih]
    · simp [removeKey, h, ih]

theorem countKey_removeKey_self (key : CKey) (l : List (CKey × CredentialValue)) :
    countKey key (removeKey key l) = 0 := by
  induction l with
  | nil => rfl
  | cons e es ih =>
    by_cases h : e.1 = key
    · simp [removeKey, h, ih]
    · simp [removeKey, countKey, h, ih]

theorem countKey_removeKey_le (k1 k2 : CKey) (l : List (CKey × CredentialValue)) :
    countKey k2 (removeKey k1 l) ≤ countKey k2 l := by
  induction l with
  | nil => exact Nat.le_refl 0
  | cons e es ih =>
    by_cases h1 : e.1 = k1
    · by_cases h2 : e.1 = k2
      · simp only [removeKey, countKey, if_pos h1, if_pos h2]
        exact Nat.le_trans ih (Nat.le_succ _)
      · simp only [removeKey, countKey, if_pos h1, if_neg h2]
        exact ih
    · by_cases h2 : e.1 = k2
      · simp only [removeKey, countKey, if_neg h1, if_pos h2]
        exact Nat.add_le_add_right ih 1
      · simp only [removeKey, countKey, if_neg h1, if_neg h2]
        exact ih

theorem get_after_set (i : KeyringImplementation) (st : KState) (u : String)
    (ct : CredentialType) (v : CredentialValue) :
    (i.get u ct (i.set u ct v st).2).1 = Except.ok v := by
  simp [KeyringImplementation.set, KeyringImplementation.get, lookupKey]

theorem existsIter_eq (i : KeyringImplementation) (u : String)
    (ct : CredentialType) (n : Nat) (st : KState) :
    existsIter i u ct n st = st := by
  induction n generalizing st with
  | zero => rfl
  | succ m ih => exact ih ((i.existsCheck u ct st).2)

theorem applyOp_count_le_one (st : KState) (o : Op)
    (h : ∀ key, countKey key st.entries ≤ 1) :
    ∀ key, countKey key (applyOp st o).entries ≤ 1 := by
  intro key
  cases o with
  | opInitializeService s =>
    simpa [applyOp, KeyringImplementation.initialize_service] using h key
  | opSet u ct v =>
    by_cases hk : (st.service, u, ct) = key
    · simp [applyOp, KeyringImplementation.set, countKey, hk,
        countKey_removeKey_self]
    · simp only [applyOp, KeyringImplementation.set, countKey, if_neg hk]
      exact Nat.le_trans (countKey_removeKey_le _ _ _) (h key)
  | opGet u ct =>
    cases hl : lookupKey (st.service, u, ct) st.entries with
    | some v => simpa [applyOp, KeyringImplementation.get, hl] using h key
    | none => simpa [applyOp, KeyringImplementation.get, hl] using h key
  | opDelete u ct =>
    cases hl : lookupKey (st.service, u, ct) st.entries with
    | some v =>
      simp only [applyOp, KeyringImplementation.delete, hl]
      exact Nat.le_trans (countKey_removeKey_le _ _ _) (h key)
    | none => simpa [applyOp, KeyringImplementation.delete, hl] using h key
  | opExists u ct =>
    simpa [applyOp, KeyringImplementation.existsCheck] using h key

theorem runOps_count_le_one (ops : List Op) (st : KState)
    (h : ∀ key, countKey key st.entries ≤ 1) :
    ∀ key, countKey key (runOps ops st).entries ≤ 1 := by
  induction ops generalizing st with
  | nil => exact h
  | cons o os ih => exact ih (applyOp st o) (applyOp_count_le_one st o h)

/-- C4: after a successful `set` on an identity, `get` on the same identity
(with no intervening operation on it) succeeds and returns a value
byte-for-byte equal to the one stored. -/
theorem set_get_roundtrip (i : KeyringImplementation) (st : KState)
    (username : String) (ct : CredentialType) (v : CredentialValue) :
    (i.set username ct v st).1 = Except.ok () ∧
    (i.get username ct (i.set username ct v st).2).1 = Except.ok v :=
  ⟨rfl, get_after_set i st username ct v⟩

/-- C5: calling `set` twice on the same identity leaves only the second value
retrievable, the resulting state carries no residual trace of the first value
(two consecutive writes are a single write of the second value), and in every
state reachable from the fresh process state each credential identity maps to
at most one stored secret. -/
theorem set_overwrite (i : KeyringImplementation) (st : KState)
    (username : String) (ct : CredentialType) (v1 v2 : CredentialValue) :
    (i.get username ct (i.set username ct v2 (i.set username ct v1 st).2).2).1 =
      Except.ok v2 ∧
    (i.set username ct v2 (i.set username ct v1 st).2).2 =
      (i.set username ct v2 st).2 ∧
    (∀ ops key, countKey key (runOps ops initialState).entries ≤ 1) := by
  refine ⟨get_after_set _ _ _ _ _, ?_, ?_⟩
  · simp [KeyringImplementation.set, removeKey, removeKey_removeKey_self]
  · exact fun ops key =>
      runOps_count_le_one ops initialState (fun _ => Nat.zero_le 1) key

/-- C6: when an identity has a stored value, `delete` succeeds, a subsequent
`get` fails with `NotFound` and a subsequent `exists` returns `false`; when
nothing is stored, `delete` fails with `NotFound` and leaves the store
unchanged. -/
theorem delete_spec (i : KeyringImplementation) (st : KState)
    (username : String) (ct : CredentialType) :
    ((lookupKey (st.service, username, ct) st.entries).isSome = true →
      (i.delete username ct st).1 = Except.ok () ∧
      (i.get username ct (i.delete username ct st).2).1 =
        Except.error KError.notFound ∧
      (i.existsCheck username ct (i.delete username ct st).2).1 =
        Except.ok false) ∧
    (lookupKey (st.service, username, ct) st.entries = none →
      (i.delete username ct st).1 = Except.error KError.notFound ∧
      (i.delete username ct st).2 = st) := by
  cases hl : lookupKey (st.service, username, ct) st.entries with
  | some v =>
    refine ⟨fun _ => ⟨?_, ?_, ?_⟩, fun hn => Option.noConfusion hn⟩
    · simp [KeyringImplementation.delete, hl]
    · simp [KeyringImplementation.delete, KeyringImplementation.get, hl,
        lookupKey_removeKey_self]
    · simp [KeyringImplementation.delete, KeyringImplementation.existsCheck, hl,
        lookupKey_removeKey_self]
  | none =>
    refine ⟨fun hs => ?_, fun _ => ⟨?_, ?_⟩⟩
    · simp at hs
    · simp [KeyringImplementation.delete, hl]
    · simp [KeyringImplementation.delete, hl]

/-- C6 witness: the deletion properties at a concrete one-entry store and at
the empty store. -/
theorem delete_spec_witness :
    (KeyringImplementation.mk.delete "alice" CredentialType.password sampleState).1 =
      Except.ok () ∧
    (KeyringImplementation.mk.get "alice" CredentialType.password
      (KeyringImplementation.mk.delete "alice" CredentialType.password sampleState).2).1 =
      Except.error KError.notFound ∧
    (KeyringImplementation.mk.existsCheck "alice" CredentialType.password
      (KeyringImplementation.mk.delete "alice" CredentialType.password sampleState).2).1 =
      Except.ok false ∧
    (KeyringImplementation.mk.delete "alice" CredentialType.password initialState).1 =
      Except.error KError.notFound ∧
    (KeyringImplementation.mk.delete "alice" CredentialType.password initialState).2 =
      initialState := by
  have h1 := delete_spec KeyringImplementation.mk sampleState "alice"
    CredentialType.password
  have h2 := delete_spec KeyringImplementation.mk initialState "alice"
    CredentialType.password
  have hs : (lookupKey (sampleState.service, "alice", CredentialType.password)
      sampleState.entries).isSome = true := by decide
  have hn : lookupKey (initialState.service, "alice", CredentialType.password)
      initialState.entries = none := rfl
  exact ⟨(h1.1 hs).1, (h1.1 hs).2.1, (h1.1 hs).2.2, (h2.2 hn).1, (h2.2 hn).2⟩

/-- C7: `exists` never changes the store state, returns `Ok` of a boolean
(never `NotFound`) indicating whether the identity is present, and any number
of interleaved `exists` calls between a `set` and the next `get` does not
change the value that `get` returns. -/
theorem exists_side_effect_free (i : KeyringImplementation) (st : KState)
    (username u2 : String) (ct ct2 : CredentialType) :
    (i.existsCheck username ct st).2 = st ∧
    (i.existsCheck username ct st).1 =
      Except.ok (lookupKey (st.service, username, ct) st.entries).isSome ∧
    (∀ n v, (i.get u2 ct2
      (existsIter i username ct n (i.set u2 ct2 v st).2)).1 = Except.ok v) := by
  refine ⟨rfl, rfl, fun n v => ?_⟩
  rw [existsIter_eq]
  exact get_after_set i st u2 ct2 v

/-- C2: each of the four facade CRUD operations, on both the desktop and the
mobile adapter, is extensionally equal to the corresponding operation of the
underlying `KeyringImplementation`: same arguments, same result, no further
effect. -/
theorem facade_delegates_to_implementation {A H : Type} (k : Desktop.Keyring A)
    (m : Mobile.Keyring H) (username : String) (ct : CredentialType)
    (v : CredentialValue) (st : KState) :
    Desktop.Keyring.set k username ct v st =
      KeyringImplementation.set KeyringImplementation.mk username ct v st ∧
    Desktop.Keyring.get k username ct st =
      KeyringImplementation.get KeyringImplementation.mk username ct st ∧
    Desktop.Keyring.delete k username ct st =
      KeyringImplementation.delete KeyringImplementation.mk username ct st ∧
    Desktop.Keyring.existsCheck k username ct st =
      KeyringImplementation.existsCheck KeyringImplementation.mk username ct st ∧
    Mobile.Keyring.set m username ct v st =
      KeyringImplementation.set KeyringImplementation.mk username ct v st ∧
    Mobile.Keyring.get m username ct st =
      KeyringImplementation.get KeyringImplementation.mk username ct st ∧
    Mobile.Keyring.delete m username ct st =
      KeyringImplementation.delete KeyringImplementation.mk username ct st ∧
    Mobile.Keyring.existsCheck m username ct st =
      KeyringImplementation.existsCheck KeyringImplementation.mk username ct st :=
  ⟨rfl, rfl, rfl, rfl, rfl, rfl, rfl, rfl⟩

/-- C1 counterexample: with the `KEYRING_USE_MOCK` signal present in the
environment, the mobile `init` (src/mobile.rs performs no mock check) still
constructs and installs the platform-native android store, not the mock store
— refuting the claim that the mock path bypasses platform-specific selection
on every host adapter. -/
theorem mobile_init_ignores_mock_signal :
    (envVar "KEYRING_USE_MOCK" [("KEYRING_USE_MOCK", "1")]).isSome = true ∧
    (mobileInit 0 [("KEYRING_USE_MOCK", "1")] MobileOS.android
      (fun _ => Except.ok ()) (Except.ok 0)).constructed = [Backend.androidStore] ∧
    Backend.androidStore.isPlatformNative = true ∧
    (mobileInit 0 [("KEYRING_USE_MOCK", "1")] MobileOS.android
      (fun _ => Except.ok ()) (Except.ok 0)).installed = some Backend.androidStore :=
  ⟨by decide, rfl, rfl, rfl⟩

/-- C1 (amended): when the `KEYRING_USE_MOCK` environment signal is present,
the desktop `init` constructs only the in-memory mock store (no
platform-native backend is constructed) and installs it on success; the
mobile `init` performs no mock check and always constructs the
platform-native store of its target. -/
theorem mock_selection_desktop_only {A B H : Type} (app : A) (api : B)
    (env : List (String × String)) (os : DesktopOS) (mos : MobileOS)
    (construct : Backend → Except String Unit) (register : Except String H)
    (h : (envVar "KEYRING_USE_MOCK" env).isSome = true) :
    (desktopInit app api env os construct).constructed = [Backend.mock] ∧
    (∀ b, b ∈ (desktopInit app api env os construct).constructed →
      b.isPlatformNative = false) ∧
    (construct Backend.mock = Except.ok () →
      (desktopInit app api env os construct).installed = some Backend.mock) ∧
    (mobileInit app env mos construct register).constructed = [mos.backend] := by
  have hcon : (desktopInit app api env os construct).constructed = [Backend.mock] := by
    simp only [desktopInit, if_pos h]
    cases construct Backend.mock <;> rfl
  refine ⟨hcon, ?_, ?_, ?_⟩
  · intro b hb
    rw [hcon] at hb
    simp at hb
    rw [hb]
    rfl
  · intro hok
    simp only [desktopInit, if_pos h, hok]
  · show (mobileInit app env mos construct register).constructed = [mos.backend]
    unfold mobileInit
    cases construct mos.backend with
    | error e => rfl
    | ok u => cases register <;> rfl

/-- C1 (amended) witness: at a concrete environment carrying the signal, the
macOS desktop `init` constructs only the mock store while the iOS mobile
`init` still constructs the platform store. -/
theorem mock_selection_desktop_only_witness :
    (desktopInit 0 0 [("KEYRING_USE_MOCK", "")] DesktopOS.macos
      (fun _ => Except.ok ())).constructed = [Backend.mock] ∧
    (mobileInit 0 [("KEYRING_USE_MOCK", "")] MobileOS.ios
      (fun _ => Except.ok ()) (Except.ok 0)).constructed = [MobileOS.ios.backend] := by
  have h := mock_selection_desktop_only (H := Nat) 0 0 [("KEYRING_USE_MOCK", "")]
    DesktopOS.macos MobileOS.ios (fun _ => Except.ok ()) (Except.ok 0) (by decide)
  exact ⟨h.1, h.2.2.2⟩

/-- C3: when the selected backend's constructor fails with diagnostic `msg`,
`init` returns `PlatformError` carrying exactly `msg`, installs no backend as
the process-wide default store, and attempts no other backend (the failing
constructor is the only one invoked) — on both the desktop and the mobile
adapter. -/
theorem init_construction_failure {A B H : Type} (app : A) (api : B)
    (env : List (String × String)) (os : DesktopOS) (mos : MobileOS)
    (construct : Backend → Except String Unit) (register : Except String H)
    (msg : String) :
    (construct (if (envVar "KEYRING_USE_MOCK" env).isSome then Backend.mock
        else os.backend) = Except.error msg →
      (desktopInit app api env os construct).result =
        Except.error (KError.platformError msg) ∧
      (desktopInit app api env os construct).installed = none ∧
      (desktopInit app api env os construct).constructed =
        [if (envVar "KEYRING_USE_MOCK" env).isSome then Backend.mock
          else os.backend]) ∧
    (construct mos.backend = Except.error msg →
      (mobileInit app env mos construct register).result =
        Except.error (KError.platformError msg) ∧
      (mobileInit app env mos construct register).installed = none ∧
      (mobileInit app env mos construct register).constructed = [mos.backend]) := by
  constructor
  · intro hc
    by_cases h : (envVar "KEYRING_USE_MOCK" env).isSome = true
    · rw [if_pos h] at hc
      refine ⟨?_, ?_, ?_⟩ <;> simp only [desktopInit, if_pos h, hc]
    · rw [if_neg h] at hc
      refine ⟨?_, ?_, ?_⟩ <;> simp only [desktopInit, if_neg h, hc]
  · intro hc
    refine ⟨?_, ?_, ?_⟩ <;> simp only [mobileInit, hc]

/-- C3 witness: with a constructor failing with diagnostic "boom" and no mock
signal, the Windows desktop `init` and the android mobile `init` both return
`PlatformError "boom"` and install nothing. -/
theorem init_construction_failure_witness :
    (desktopInit 0 0 [] DesktopOS.windows failConstruct).result =
      Except.error (KError.platformError "boom") ∧
    (desktopInit 0 0 [] DesktopOS.windows failConstruct).installed = none ∧
    (mobileInit 0 [] MobileOS.android failConstruct (Except.ok 0)).result =
      Except.error (KError.platformError "boom") ∧
    (mobileInit 0 [] MobileOS.android failConstruct (Except.ok 0)).installed =
      none := by
  have h := init_construction_failure (H := Nat) 0 0 [] DesktopOS.windows
    MobileOS.android failConstruct (Except.ok 0) "boom"
  have hd := h.1 rfl
  have hm := h.2 rfl
  exact ⟨hd.1, hd.2.1, hm.1, hm.2.1⟩

/-- C8: the `LinuxStore` alias resolves exactly when precisely one of the two
mutually exclusive build features is enabled (both or neither is a rejected
build), and a Linux desktop build with resolved feature `f` constructs exactly
the single backend `f` selects whenever the mock signal is absent (and only
the mock store when it is present). -/
theorem linux_feature_selection {A B : Type} (app : A) (api : B)
    (construct : Backend → Except String Unit) :
    linuxStoreAlias true false = some LinuxFeature.dbusSecretService ∧
    linuxStoreAlias false true = some LinuxFeature.linuxKeyutils ∧
    linuxStoreAlias true true = none ∧
    linuxStoreAlias false false = none ∧
    (∀ env f,
      (desktopInit app api env (DesktopOS.linux f) construct).constructed =
        if (envVar "KEYRING_USE_MOCK" env).isSome then [Backend.mock]
        else [f.backend]) := by
  refine ⟨rfl, rfl, rfl, rfl, fun env f => ?_⟩
  by_cases h : (envVar "KEYRING_USE_MOCK" env).isSome = true
  · simp only [desktopInit, if_pos h]
    cases construct Backend.mock <;> rfl
  · simp only [desktopInit, if_neg h]
    cases construct (DesktopOS.linux f).backend <;> rfl

/-- C9: the desktop `init` does not depend on the `PluginApi` capability
object: two calls agreeing on the app handle, the environment, the target and
the constructor outcomes, but with arbitrarily different `api` arguments (even
of different types), have identical results and effects. -/
theorem desktop_init_independent_of_api {A B1 B2 : Type} (app : A) (api1 : B1)
    (api2 : B2) (env : List (String × String)) (os : DesktopOS)
    (construct : Backend → Except String Unit) :
    desktopInit app api1 env os construct = desktopInit app api2 env os construct :=
  rfl

/-- C10: desktop mock selection is triggered by the mere presence of
`KEYRING_USE_MOCK`: whenever the variable is bound — to any value, the empty
string and "false" included — only the mock store is constructed, and the
platform branch is taken exactly when the variable is entirely unset. -/
theorem desktop_mock_presence_not_value {A B : Type} (app : A) (api : B)
    (os : DesktopOS) (construct : Backend → Except String Unit) :
    (∀ env, (envVar "KEYRING_USE_MOCK" env).isSome = true →
      (desktopInit app api env os construct).constructed = [Backend.mock]) ∧
    (∀ value rest,
      (desktopInit app api (("KEYRING_USE_MOCK", value) :: rest) os
        construct).constructed = [Backend.mock]) ∧
    (∀ env, envVar "KEYRING_USE_MOCK" env = none →
      (desktopInit app api env os construct).constructed = [os.backend]) := by
  have hmock : ∀ env, (envVar "KEYRING_USE_MOCK" env).isSome = true →
      (desktopInit app api env os construct).constructed = [Backend.mock] := by
    intro env h
    simp only [desktopInit, if_pos h]
    cases construct Backend.mock <;> rfl
  refine ⟨hmock, fun value rest => ?_, fun env h => ?_⟩
  · apply hmock
    simp [envVar]
  · have h' : ¬((envVar "KEYRING_USE_MOCK" env).isSome = true) := by simp [h]
    simp only [desktopInit, if_neg h']
    cases construct os.backend <;> rfl

/-- C10 witness: binding the variable to "false" still selects the mock store,
while an environment without the variable selects the platform store. -/
theorem desktop_mock_presence_not_value_witness :
    (desktopInit 0 0 [("KEYRING_USE_MOCK", "false")] DesktopOS.windows
      (fun _ => Except.ok ())).constructed = [Backend.mock] ∧
    (desktopInit 0 0 [("HOME", "/root")] DesktopOS.windows
      (fun _ => Except.ok ())).constructed = [DesktopOS.windows.backend] := by
  have h := desktop_mock_presence_not_value 0 0 DesktopOS.windows
    (fun _ => Except.ok ())
  exact ⟨h.2.1 "false" [], h.2.2 [("HOME", "/root")] (by decide)⟩
